import Mathlib

/-!
Shallow embedding of `git-review`'s hook management core (`hook.go`):
the commit-msg Change-Id injector `hookCommitMsg`, the hook installer
`installHook` with its legacy-script migration, the repository-root
walker `repoRoot`, and the dispatcher `hookInvoke`.

File contents are modelled as byte sequences (`List Nat`, each entry a
byte value).  The hook-directory filesystem is a partial map from path
strings to files.  External effects that the Go code consults are
explicit parameters: the verbosity flag (`*verbose`), whether
`os.Remove` / `ioutil.WriteFile` fail, and the 20 random bytes drawn
from `crypto/rand`.
-/

namespace GoReview

/-- Bytes of an ASCII string literal (for ASCII text, `Char.toNat` of each
character is exactly the byte that Go sees). -/
def strBytes (s : String) : List Nat := s.toList.map Char.toNat

/-- Whether `p` occurs at the very start of `d` (byte-wise). -/
def startsWithSeq : List Nat → List Nat → Bool
  | _, [] => true
  | [], _ :: _ => false
  | d :: ds, p :: ps => d == p && startsWithSeq ds ps

/-- Whether `p` occurs anywhere inside `d`; models Go's `bytes.Contains`. -/
def containsSeq : List Nat → List Nat → Bool
  | [], ps => startsWithSeq [] ps
  | d :: ds, ps => startsWithSeq (d :: ds) ps || containsSeq ds ps

/-- Models the loop `n := len(data); for n > 0 && data[n-1] == '\n' { n-- }`
followed by `data[:n]`: drop every trailing newline byte. -/
def trimTrailingNewlines (data : List Nat) : List Nat :=
  (List.dropWhile (fun b => b == 10) data.reverse).reverse

/-- ASCII code of the lowercase hex digit for `n < 16`
(this is what Go's `%x` verb emits digit-by-digit). -/
def hexDigit (n : Nat) : Nat :=
  if n < 10 then 48 + n else 87 + n

/-- The two lowercase hex digits of one byte, as Go's `%x` renders a byte. -/
def byteHex (b : Nat) : List Nat := [hexDigit (b / 16), hexDigit (b % 16)]

/-- Go's `fmt.Sprintf("%x", bs)` on a byte slice: each byte as two
lowercase hex digits. -/
def bytesHex (bs : List Nat) : List Nat := (bs.map byteHex).flatten

/-- Recognizer for a lowercase hexadecimal digit byte (`0`-`9` or `a`-`f`). -/
def isLowerHexByte (c : Nat) : Bool :=
  (48 ≤ c && c ≤ 57) || (97 ≤ c && c ≤ 102)

/-- The byte sequence `"\nChange-Id: "` that `hookCommitMsg` scans for. -/
def changeIdMarker : List Nat := strBytes "\nChange-Id: "

/-- The byte sequence `"\n\nChange-Id: I"` ++ hex ++ `"\n"` that
`hookCommitMsg` appends (from `fmt.Sprintf("\n\nChange-Id: I%x\n", id[:])`). -/
def changeIdAppend (id : List Nat) : List Nat :=
  strBytes "\n\nChange-Id: I" ++ bytesHex id ++ strBytes "\n"

/-- The data transformation of `hookCommitMsg` once the file bytes `data`
and the 20 random bytes `id` are in hand: `none` means the handler returns
without writing; `some d` means it writes `d` back to the file. -/
def hookCommitMsgData (data id : List Nat) : Option (List Nat) :=
  if containsSeq data changeIdMarker then none
  else some (trimTrailingNewlines data ++ changeIdAppend id)

/-- The final content of the message file after a successful run of the
commit-msg handler (unchanged when the handler declined to write). -/
def commitMsgFinal (data id : List Nat) : List Nat :=
  (hookCommitMsgData data id).getD data

theorem startsWithSeq_nil (d : List Nat) : startsWithSeq d [] = true := by
  cases d <;> rfl

theorem startsWithSeq_self_append (p r : List Nat) : startsWithSeq (p ++ r) p = true := by
  induction p with
  | nil => exact startsWithSeq_nil r
  | cons c ps ih => simp [startsWithSeq, ih]

theorem startsWithSeq_append_left (p a b : List Nat) (h : startsWithSeq a p = true) :
    startsWithSeq (a ++ b) p = true := by
  induction p generalizing a with
  | nil => exact startsWithSeq_nil _
  | cons c ps ih =>
    cases a with
    | nil => simp [startsWithSeq] at h
    | cons x xs =>
      simp only [startsWithSeq, Bool.and_eq_true, beq_iff_eq] at h
      obtain ⟨rfl, h2⟩ := h
      simpa [startsWithSeq] using ih xs h2

theorem containsSeq_of_startsWithSeq (d p : List Nat) (h : startsWithSeq d p = true) :
    containsSeq d p = true := by
  cases d with
  | nil => simpa [containsSeq] using h
  | cons x xs => simp [containsSeq, h]

theorem containsSeq_append_right (xs ys p : List Nat) (h : containsSeq ys p = true) :
    containsSeq (xs ++ ys) p = true := by
  induction xs with
  | nil => simpa using h
  | cons x xs ih => simp [containsSeq, ih]

theorem header_split : strBytes "\n\nChange-Id: I" = 10 :: (changeIdMarker ++ [73]) := by
  decide

/-- Whatever precedes it, the fresh output of the injector contains the
`"\nChange-Id: "` marker. -/
theorem output_contains (pre id : List Nat) :
    containsSeq (pre ++ changeIdAppend id) changeIdMarker = true := by
  have h1 : pre ++ changeIdAppend id
      = (pre ++ [10]) ++ (changeIdMarker ++ ([73] ++ (bytesHex id ++ strBytes "\n"))) := by
    simp [changeIdAppend, header_split]
  rw [h1]
  exact containsSeq_append_right _ _ _
    (containsSeq_of_startsWithSeq _ _ (startsWithSeq_self_append _ _))

theorem bytesHex_cons (b : Nat) (bs : List Nat) :
    bytesHex (b :: bs) = byteHex b ++ bytesHex bs := rfl

theorem bytesHex_length (bs : List Nat) : (bytesHex bs).length = 2 * bs.length := by
  induction bs with
  | nil => rfl
  | cons b bs ih =>
    rw [bytesHex_cons, List.length_append, ih]
    simp only [byteHex, List.length_cons, List.length_nil, List.length_singleton]
    omega

theorem hexDigit_isLower (n : Nat) (h : n < 16) : isLowerHexByte (hexDigit n) = true := by
  interval_cases n <;> decide

theorem bytesHex_lowerHex (bs : List Nat) (h : ∀ b ∈ bs, b < 256) :
    ∀ c ∈ bytesHex bs, isLowerHexByte c = true := by
  induction bs with
  | nil => intro c hc; simp [bytesHex] at hc
  | cons b bs ih =>
    intro c hc
    rw [bytesHex_cons, List.mem_append] at hc
    rcases hc with hc | hc
    · have hb : b < 256 := h b (by simp)
      simp only [byteHex, List.mem_cons, List.not_mem_nil, or_false] at hc
      rcases hc with h1 | h1
      · rw [h1]; exact hexDigit_isLower _ (by omega)
      · rw [h1]; exact hexDigit_isLower _ (by omega)
    · exact ih (fun x hx => h x (List.mem_cons_of_mem _ hx)) c hc

theorem trimTrailingNewlines_cons (b : Nat) (bs : List Nat) :
    trimTrailingNewlines (b :: bs) =
      if trimTrailingNewlines bs = [] then (if b == 10 then [] else [b])
      else b :: trimTrailingNewlines bs := by
  unfold trimTrailingNewlines
  rw [List.reverse_cons, List.dropWhile_append]
  by_cases hnil : List.dropWhile (fun x => x == 10) bs.reverse = []
  · rw [if_pos (by simp [hnil]), if_pos (by simp [hnil])]
    by_cases hb : (b == 10) = true
    · simp [List.dropWhile, hb]
    · simp only [Bool.not_eq_true] at hb
      simp [List.dropWhile, hb]
  · rw [if_neg (by simp [hnil]), if_neg (by simp [List.reverse_eq_nil_iff, hnil])]
    rw [List.reverse_append]
    simp

theorem trim_eq_nil_iff (l : List Nat) :
    trimTrailingNewlines l = [] ↔ ∀ x ∈ l, x = 10 := by
  unfold trimTrailingNewlines
  rw [List.reverse_eq_nil_iff, List.dropWhile_eq_nil_iff]
  simp

/-- Trimming trailing newlines preserves any newline-free leading bytes. -/
theorem startsWithSeq_trim (p data : List Nat) (hp : ∀ b ∈ p, b ≠ 10)
    (h : startsWithSeq data p = true) :
    startsWithSeq (trimTrailingNewlines data) p = true := by
  induction p generalizing data with
  | nil => exact startsWithSeq_nil _
  | cons c ps ih =>
    cases data with
    | nil => simp [startsWithSeq] at h
    | cons d ds =>
      simp only [startsWithSeq, Bool.and_eq_true, beq_iff_eq] at h
      obtain ⟨rfl, h2⟩ := h
      have hc10 : (d == 10) = false := by
        have := hp d (by simp)
        simpa using this
      rw [trimTrailingNewlines_cons]
      by_cases ht : trimTrailingNewlines ds = []
      · rw [if_pos ht, hc10]
        cases ps with
        | nil => simp [startsWithSeq]
        | cons e es =>
          exfalso
          cases ds with
          | nil => simp [startsWithSeq] at h2
          | cons d' ds' =>
            have hd10 : d' = 10 := (trim_eq_nil_iff _).1 ht d' (by simp)
            have hde : d' = e := by
              simp only [startsWithSeq, Bool.and_eq_true, beq_iff_eq] at h2
              exact h2.1
            exact hp e (by simp) (hde ▸ hd10)
      · rw [if_neg ht]
        simpa [startsWithSeq] using ih ds (fun b hb => hp b (List.mem_cons_of_mem _ hb)) h2

/-- C1: when the message does not already contain `"\nChange-Id: "` (and the
read, randomness and write steps succeed), the handler rewrites the file to
exactly the trailing-newline-trimmed content, two newlines, `"Change-Id: I"`,
40 lowercase hex characters encoding the 20 random bytes, and one trailing
newline; on `"fix bug\n"` the output is exactly
`"fix bug\n\nChange-Id: I<40 lowercase hex chars>\n"`. -/
theorem c1_commit_msg_format (data id : List Nat)
    (h1 : containsSeq data changeIdMarker = false)
    (h2 : id.length = 20) (h3 : ∀ b ∈ id, b < 256) :
    commitMsgFinal data id
        = trimTrailingNewlines data ++ (strBytes "\n\nChange-Id: I" ++ bytesHex id ++ strBytes "\n")
    ∧ (bytesHex id).length = 40
    ∧ (∀ c ∈ bytesHex id, isLowerHexByte c = true)
    ∧ commitMsgFinal (strBytes "fix bug\n") id
        = strBytes "fix bug\n\nChange-Id: I" ++ (bytesHex id ++ strBytes "\n") := by
  refine ⟨?_, ?_, bytesHex_lowerHex id h3, ?_⟩
  · simp [commitMsgFinal, hookCommitMsgData, h1, changeIdAppend]
  · rw [bytesHex_length, h2]
  · have hff : containsSeq (strBytes "fix bug\n") changeIdMarker = false := by decide
    have ht : trimTrailingNewlines (strBytes "fix bug\n") = strBytes "fix bug" := by decide
    have hjoin : strBytes "fix bug" ++ strBytes "\n\nChange-Id: I"
        = strBytes "fix bug\n\nChange-Id: I" := by decide
    simp only [commitMsgFinal, hookCommitMsgData, hff, Bool.false_eq_true, if_false,
      Option.getD_some, changeIdAppend, ht]
    rw [← hjoin]
    simp [List.append_assoc]

theorem c1_commit_msg_format_witness :
    commitMsgFinal (strBytes "hello") (List.range 20)
        = trimTrailingNewlines (strBytes "hello")
            ++ (strBytes "\n\nChange-Id: I" ++ bytesHex (List.range 20) ++ strBytes "\n")
    ∧ (bytesHex (List.range 20)).length = 40
    ∧ (∀ c ∈ bytesHex (List.range 20), isLowerHexByte c = true)
    ∧ commitMsgFinal (strBytes "fix bug\n") (List.range 20)
        = strBytes "fix bug\n\nChange-Id: I" ++ (bytesHex (List.range 20) ++ strBytes "\n") :=
  c1_commit_msg_format (strBytes "hello") (List.range 20) (by decide) (by decide) (by decide)

/-- C2: a message that contains `"\nChange-Id: "` anywhere is left
byte-for-byte unchanged — the handler performs no write at all, regardless
of the position of the marker or the validity of the value after it. -/
theorem c2_existing_trailer_untouched (data id : List Nat)
    (h : containsSeq data changeIdMarker = true) :
    hookCommitMsgData data id = none ∧ commitMsgFinal data id = data := by
  simp [hookCommitMsgData, commitMsgFinal, h]

theorem c2_existing_trailer_untouched_witness :
    hookCommitMsgData (strBytes "x\nChange-Id: abc\nrest") [] = none
    ∧ commitMsgFinal (strBytes "x\nChange-Id: abc\nrest") [] = strBytes "x\nChange-Id: abc\nrest" :=
  c2_existing_trailer_untouched (strBytes "x\nChange-Id: abc\nrest") [] (by decide)

/-- C8: running the commit-msg handler twice on the same file leaves the
file unchanged after the second run: for every initial content the result
of the first run contains `"\nChange-Id: "`, so the second run writes
nothing. -/
theorem c8_handler_idempotent (data id1 id2 : List Nat) :
    containsSeq (commitMsgFinal data id1) changeIdMarker = true
    ∧ hookCommitMsgData (commitMsgFinal data id1) id2 = none
    ∧ commitMsgFinal (commitMsgFinal data id1) id2 = commitMsgFinal data id1 := by
  have hc : containsSeq (commitMsgFinal data id1) changeIdMarker = true := by
    by_cases h : containsSeq data changeIdMarker = true
    · simp [commitMsgFinal, hookCommitMsgData, h]
    · have h' : containsSeq data changeIdMarker = false := by
        simpa using h
      simp only [commitMsgFinal, hookCommitMsgData, h', Bool.false_eq_true, if_false,
        Option.getD_some]
      exact output_contains _ _
  have h2 : hookCommitMsgData (commitMsgFinal data id1) id2 = none := by
    simp [hookCommitMsgData, hc]
  refine ⟨hc, h2, ?_⟩
  generalize hX : commitMsgFinal data id1 = x at h2 ⊢
  simp [commitMsgFinal, h2]

/-- C10: a message whose very first bytes are `"Change-Id: "` (no preceding
newline) and with no `"\nChange-Id: "` elsewhere is not recognized: the
handler still writes, appending a second trailer, because detection requires
a newline byte immediately before `"Change-Id: "`. -/
theorem c10_first_line_trailer_missed (data id : List Nat)
    (h0 : startsWithSeq data (strBytes "Change-Id: ") = true)
    (h1 : containsSeq data changeIdMarker = false) :
    hookCommitMsgData data id = some (trimTrailingNewlines data ++ changeIdAppend id)
    ∧ startsWithSeq (commitMsgFinal data id) (strBytes "Change-Id: ") = true
    ∧ containsSeq (commitMsgFinal data id) changeIdMarker = true := by
  have hw : hookCommitMsgData data id
      = some (trimTrailingNewlines data ++ changeIdAppend id) := by
    simp [hookCommitMsgData, h1]
  refine ⟨hw, ?_, ?_⟩
  · have hfinal : commitMsgFinal data id = trimTrailingNewlines data ++ changeIdAppend id := by
      simp [commitMsgFinal, hw]
    rw [hfinal]
    exact startsWithSeq_append_left _ _ _
      (startsWithSeq_trim _ _ (by decide) h0)
  · have hfinal : commitMsgFinal data id = trimTrailingNewlines data ++ changeIdAppend id := by
      simp [commitMsgFinal, hw]
    rw [hfinal]
    exact output_contains _ _

theorem c10_first_line_trailer_missed_witness :
    hookCommitMsgData (strBytes "Change-Id: Iabc\n") []
        = some (trimTrailingNewlines (strBytes "Change-Id: Iabc\n") ++ changeIdAppend [])
    ∧ startsWithSeq (commitMsgFinal (strBytes "Change-Id: Iabc\n") []) (strBytes "Change-Id: ") = true
    ∧ containsSeq (commitMsgFinal (strBytes "Change-Id: Iabc\n") []) changeIdMarker = true :=
  c10_first_line_trailer_missed (strBytes "Change-Id: Iabc\n") [] (by decide) (by decide)

/-- The exact byte sequence of the historical Gerrit commit-msg shell
script (`oldCommitMsgHook` in `hook.go`), given as byte values so that the
comparison below is literally byte-for-byte.  Its first bytes are
`"#!/bin/sh\n# From Gerrit Code Review 2.2.1"` and it ends with
`"add_ChangeId\n"`; 2329 bytes in total. -/
def oldCommitMsgHook : List Nat := [
  35, 33, 47, 98, 105, 110, 47, 115, 104, 10, 35, 32, 70, 114, 111, 109, 32, 71, 101, 114,
  114, 105, 116, 32, 67, 111, 100, 101, 32, 82, 101, 118, 105, 101, 119, 32, 50, 46, 50, 46,
  49, 10, 35, 10, 35, 32, 80, 97, 114, 116, 32, 111, 102, 32, 71, 101, 114, 114, 105, 116,
  32, 67, 111, 100, 101, 32, 82, 101, 118, 105, 101, 119, 32, 40, 104, 116, 116, 112, 58, 47,
  47, 99, 111, 100, 101, 46, 103, 111, 111, 103, 108, 101, 46, 99, 111, 109, 47, 112, 47, 103,
  101, 114, 114, 105, 116, 47, 41, 10, 35, 10, 35, 32, 67, 111, 112, 121, 114, 105, 103, 104,
  116, 32, 40, 67, 41, 32, 50, 48, 48, 57, 32, 84, 104, 101, 32, 65, 110, 100, 114, 111,
  105, 100, 32, 79, 112, 101, 110, 32, 83, 111, 117, 114, 99, 101, 32, 80, 114, 111, 106, 101,
  99, 116, 10, 35, 10, 35, 32, 76, 105, 99, 101, 110, 115, 101, 100, 32, 117, 110, 100, 101,
  114, 32, 116, 104, 101, 32, 65, 112, 97, 99, 104, 101, 32, 76, 105, 99, 101, 110, 115, 101,
  44, 32, 86, 101, 114, 115, 105, 111, 110, 32, 50, 46, 48, 32, 40, 116, 104, 101, 32, 34,
  76, 105, 99, 101, 110, 115, 101, 34, 41, 59, 10, 35, 32, 121, 111, 117, 32, 109, 97, 121,
  32, 110, 111, 116, 32, 117, 115, 101, 32, 116, 104, 105, 115, 32, 102, 105, 108, 101, 32, 101,
  120, 99, 101, 112, 116, 32, 105, 110, 32, 99, 111, 109, 112, 108, 105, 97, 110, 99, 101, 32,
  119, 105, 116, 104, 32, 116, 104, 101, 32, 76, 105, 99, 101, 110, 115, 101, 46, 10, 35, 32,
  89, 111, 117, 32, 109, 97, 121, 32, 111, 98, 116, 97, 105, 110, 32, 97, 32, 99, 111, 112,
  121, 32, 111, 102, 32, 116, 104, 101, 32, 76, 105, 99, 101, 110, 115, 101, 32, 97, 116, 10,
  35, 10, 35, 32, 104, 116, 116, 112, 58, 47, 47, 119, 119, 119, 46, 97, 112, 97, 99, 104,
  101, 46, 111, 114, 103, 47, 108, 105, 99, 101, 110, 115, 101, 115, 47, 76, 73, 67, 69, 78,
  83, 69, 45, 50, 46, 48, 10, 35, 10, 35, 32, 85, 110, 108, 101, 115, 115, 32, 114, 101,
  113, 117, 105, 114, 101, 100, 32, 98, 121, 32, 97, 112, 112, 108, 105, 99, 97, 98, 108, 101,
  32, 108, 97, 119, 32, 111, 114, 32, 97, 103, 114, 101, 101, 100, 32, 116, 111, 32, 105, 110,
  32, 119, 114, 105, 116, 105, 110, 103, 44, 32, 115, 111, 102, 116, 119, 97, 114, 101, 10, 35,
  32, 100, 105, 115, 116, 114, 105, 98, 117, 116, 101, 100, 32, 117, 110, 100, 101, 114, 32, 116,
  104, 101, 32, 76, 105, 99, 101, 110, 115, 101, 32, 105, 115, 32, 100, 105, 115, 116, 114, 105,
  98, 117, 116, 101, 100, 32, 111, 110, 32, 97, 110, 32, 34, 65, 83, 32, 73, 83, 34, 32,
  66, 65, 83, 73, 83, 44, 10, 35, 32, 87, 73, 84, 72, 79, 85, 84, 32, 87, 65, 82,
  82, 65, 78, 84, 73, 69, 83, 32, 79, 82, 32, 67, 79, 78, 68, 73, 84, 73, 79, 78,
  83, 32, 79, 70, 32, 65, 78, 89, 32, 75, 73, 78, 68, 44, 32, 101, 105, 116, 104, 101,
  114, 32, 101, 120, 112, 114, 101, 115, 115, 32, 111, 114, 32, 105, 109, 112, 108, 105, 101, 100,
  46, 10, 35, 32, 83, 101, 101, 32, 116, 104, 101, 32, 76, 105, 99, 101, 110, 115, 101, 32,
  102, 111, 114, 32, 116, 104, 101, 32, 115, 112, 101, 99, 105, 102, 105, 99, 32, 108, 97, 110,
  103, 117, 97, 103, 101, 32, 103, 111, 118, 101, 114, 110, 105, 110, 103, 32, 112, 101, 114, 109,
  105, 115, 115, 105, 111, 110, 115, 32, 97, 110, 100, 10, 35, 32, 108, 105, 109, 105, 116, 97,
  116, 105, 111, 110, 115, 32, 117, 110, 100, 101, 114, 32, 116, 104, 101, 32, 76, 105, 99, 101,
  110, 115, 101, 46, 10, 35, 10, 10, 67, 72, 65, 78, 71, 69, 95, 73, 68, 95, 65, 70,
  84, 69, 82, 61, 34, 66, 117, 103, 124, 73, 115, 115, 117, 101, 34, 10, 77, 83, 71, 61,
  34, 36, 49, 34, 10, 10, 35, 32, 67, 104, 101, 99, 107, 32, 102, 111, 114, 44, 32, 97,
  110, 100, 32, 97, 100, 100, 32, 105, 102, 32, 109, 105, 115, 115, 105, 110, 103, 44, 32, 97,
  32, 117, 110, 105, 113, 117, 101, 32, 67, 104, 97, 110, 103, 101, 45, 73, 100, 10, 35, 10,
  97, 100, 100, 95, 67, 104, 97, 110, 103, 101, 73, 100, 40, 41, 32, 123, 10, 9, 99, 108,
  101, 97, 110, 95, 109, 101, 115, 115, 97, 103, 101, 61, 96, 115, 101, 100, 32, 45, 101, 32,
  39, 10, 9, 9, 47, 94, 100, 105, 102, 102, 32, 45, 45, 103, 105, 116, 32, 97, 92, 47,
  46, 42, 47, 123, 10, 9, 9, 9, 115, 47, 47, 47, 10, 9, 9, 9, 113, 10, 9, 9,
  125, 10, 9, 9, 47, 94, 83, 105, 103, 110, 101, 100, 45, 111, 102, 102, 45, 98, 121, 58,
  47, 100, 10, 9, 9, 47, 94, 35, 47, 100, 10, 9, 39, 32, 34, 36, 77, 83, 71, 34,
  32, 124, 32, 103, 105, 116, 32, 115, 116, 114, 105, 112, 115, 112, 97, 99, 101, 96, 10, 9,
  105, 102, 32, 116, 101, 115, 116, 32, 45, 122, 32, 34, 36, 99, 108, 101, 97, 110, 95, 109,
  101, 115, 115, 97, 103, 101, 34, 10, 9, 116, 104, 101, 110, 10, 9, 9, 114, 101, 116, 117,
  114, 110, 10, 9, 102, 105, 10, 10, 9, 105, 102, 32, 103, 114, 101, 112, 32, 45, 105, 32,
  39, 94, 67, 104, 97, 110, 103, 101, 45, 73, 100, 58, 39, 32, 34, 36, 77, 83, 71, 34,
  32, 62, 47, 100, 101, 118, 47, 110, 117, 108, 108, 10, 9, 116, 104, 101, 110, 10, 9, 9,
  114, 101, 116, 117, 114, 110, 10, 9, 102, 105, 10, 10, 9, 105, 100, 61, 96, 95, 103, 101,
  110, 95, 67, 104, 97, 110, 103, 101, 73, 100, 96, 10, 9, 112, 101, 114, 108, 32, 45, 101,
  32, 39, 10, 9, 9, 36, 77, 83, 71, 32, 61, 32, 115, 104, 105, 102, 116, 59, 10, 9,
  9, 36, 105, 100, 32, 61, 32, 115, 104, 105, 102, 116, 59, 10, 9, 9, 36, 67, 72, 65,
  78, 71, 69, 95, 73, 68, 95, 65, 70, 84, 69, 82, 32, 61, 32, 115, 104, 105, 102, 116,
  59, 10, 10, 9, 9, 117, 110, 100, 101, 102, 32, 36, 47, 59, 10, 9, 9, 111, 112, 101,
  110, 40, 73, 44, 32, 36, 77, 83, 71, 41, 59, 32, 36, 95, 32, 61, 32, 60, 73, 62,
  59, 32, 99, 108, 111, 115, 101, 32, 73, 59, 10, 9, 9, 115, 124, 94, 100, 105, 102, 102,
  32, 45, 45, 103, 105, 116, 32, 97, 47, 46, 42, 124, 124, 109, 115, 59, 10, 9, 9, 115,
  124, 94, 35, 46, 42, 36, 124, 124, 109, 103, 59, 10, 9, 9, 101, 120, 105, 116, 32, 117,
  110, 108, 101, 115, 115, 32, 36, 95, 59, 10, 10, 9, 9, 64, 109, 101, 115, 115, 97, 103,
  101, 32, 61, 32, 115, 112, 108, 105, 116, 32, 47, 92, 110, 47, 59, 10, 9, 9, 36, 104,
  97, 118, 101, 70, 111, 111, 116, 101, 114, 32, 61, 32, 48, 59, 10, 9, 9, 36, 115, 116,
  97, 114, 116, 70, 111, 111, 116, 101, 114, 32, 61, 32, 64, 109, 101, 115, 115, 97, 103, 101,
  59, 10, 9, 9, 102, 111, 114, 40, 36, 108, 105, 110, 101, 32, 61, 32, 64, 109, 101, 115,
  115, 97, 103, 101, 32, 45, 32, 49, 59, 32, 36, 108, 105, 110, 101, 32, 62, 61, 32, 48,
  59, 32, 36, 108, 105, 110, 101, 45, 45, 41, 32, 123, 10, 9, 9, 9, 36, 95, 32, 61,
  32, 36, 109, 101, 115, 115, 97, 103, 101, 91, 36, 108, 105, 110, 101, 93, 59, 10, 10, 9,
  9, 9, 105, 102, 32, 40, 47, 94, 91, 97, 45, 122, 65, 45, 90, 48, 45, 57, 45, 93,
  43, 58, 47, 32, 38, 38, 32, 33, 109, 44, 94, 91, 97, 45, 122, 48, 45, 57, 45, 93,
  43, 58, 47, 47, 44, 41, 32, 123, 10, 9, 9, 9, 9, 36, 104, 97, 118, 101, 70, 111,
  111, 116, 101, 114, 43, 43, 59, 10, 9, 9, 9, 9, 110, 101, 120, 116, 59, 10, 9, 9,
  9, 125, 10, 9, 9, 9, 110, 101, 120, 116, 32, 105, 102, 32, 47, 94, 91, 32, 91, 93,
  47, 59, 10, 9, 9, 9, 36, 115, 116, 97, 114, 116, 70, 111, 111, 116, 101, 114, 32, 61,
  32, 36, 108, 105, 110, 101, 32, 105, 102, 32, 40, 36, 104, 97, 118, 101, 70, 111, 111, 116,
  101, 114, 32, 38, 38, 32, 47, 94, 92, 114, 63, 36, 47, 41, 59, 10, 9, 9, 9, 108,
  97, 115, 116, 59, 10, 9, 9, 125, 10, 10, 9, 9, 64, 102, 111, 111, 116, 101, 114, 32,
  61, 32, 64, 109, 101, 115, 115, 97, 103, 101, 91, 36, 115, 116, 97, 114, 116, 70, 111, 111,
  116, 101, 114, 43, 49, 46, 46, 64, 109, 101, 115, 115, 97, 103, 101, 93, 59, 10, 9, 9,
  64, 109, 101, 115, 115, 97, 103, 101, 32, 61, 32, 64, 109, 101, 115, 115, 97, 103, 101, 91,
  48, 46, 46, 36, 115, 116, 97, 114, 116, 70, 111, 111, 116, 101, 114, 93, 59, 10, 9, 9,
  112, 117, 115, 104, 40, 64, 102, 111, 111, 116, 101, 114, 44, 32, 34, 34, 41, 32, 117, 110,
  108, 101, 115, 115, 32, 64, 102, 111, 111, 116, 101, 114, 59, 10, 10, 9, 9, 102, 111, 114,
  32, 40, 36, 108, 105, 110, 101, 32, 61, 32, 48, 59, 32, 36, 108, 105, 110, 101, 32, 60,
  32, 64, 102, 111, 111, 116, 101, 114, 59, 32, 36, 108, 105, 110, 101, 43, 43, 41, 32, 123,
  10, 9, 9, 9, 36, 95, 32, 61, 32, 36, 102, 111, 111, 116, 101, 114, 91, 36, 108, 105,
  110, 101, 93, 59, 10, 9, 9, 9, 110, 101, 120, 116, 32, 105, 102, 32, 47, 94, 40, 36,
  67, 72, 65, 78, 71, 69, 95, 73, 68, 95, 65, 70, 84, 69, 82, 41, 58, 47, 105, 59,
  10, 9, 9, 9, 108, 97, 115, 116, 59, 10, 9, 9, 125, 10, 9, 9, 115, 112, 108, 105,
  99, 101, 40, 64, 102, 111, 111, 116, 101, 114, 44, 32, 36, 108, 105, 110, 101, 44, 32, 48,
  44, 32, 34, 67, 104, 97, 110, 103, 101, 45, 73, 100, 58, 32, 73, 36, 105, 100, 34, 41,
  59, 10, 10, 9, 9, 36, 95, 32, 61, 32, 106, 111, 105, 110, 40, 34, 92, 110, 34, 44,
  32, 64, 109, 101, 115, 115, 97, 103, 101, 44, 32, 64, 102, 111, 111, 116, 101, 114, 41, 59,
  10, 9, 9, 111, 112, 101, 110, 40, 79, 44, 32, 34, 62, 36, 77, 83, 71, 34, 41, 59,
  32, 112, 114, 105, 110, 116, 32, 79, 59, 32, 99, 108, 111, 115, 101, 32, 79, 59, 10, 9,
  39, 32, 34, 36, 77, 83, 71, 34, 32, 34, 36, 105, 100, 34, 32, 34, 36, 67, 72, 65,
  78, 71, 69, 95, 73, 68, 95, 65, 70, 84, 69, 82, 34, 10, 125, 10, 95, 103, 101, 110,
  95, 67, 104, 97, 110, 103, 101, 73, 100, 73, 110, 112, 117, 116, 40, 41, 32, 123, 10, 9,
  101, 99, 104, 111, 32, 34, 116, 114, 101, 101, 32, 96, 103, 105, 116, 32, 119, 114, 105, 116,
  101, 45, 116, 114, 101, 101, 96, 34, 10, 9, 105, 102, 32, 112, 97, 114, 101, 110, 116, 61,
  96, 103, 105, 116, 32, 114, 101, 118, 45, 112, 97, 114, 115, 101, 32, 72, 69, 65, 68, 94,
  48, 32, 50, 62, 47, 100, 101, 118, 47, 110, 117, 108, 108, 96, 10, 9, 116, 104, 101, 110,
  10, 9, 9, 101, 99, 104, 111, 32, 34, 112, 97, 114, 101, 110, 116, 32, 36, 112, 97, 114,
  101, 110, 116, 34, 10, 9, 102, 105, 10, 9, 101, 99, 104, 111, 32, 34, 97, 117, 116, 104,
  111, 114, 32, 96, 103, 105, 116, 32, 118, 97, 114, 32, 71, 73, 84, 95, 65, 85, 84, 72,
  79, 82, 95, 73, 68, 69, 78, 84, 96, 34, 10, 9, 101, 99, 104, 111, 32, 34, 99, 111,
  109, 109, 105, 116, 116, 101, 114, 32, 96, 103, 105, 116, 32, 118, 97, 114, 32, 71, 73, 84,
  95, 67, 79, 77, 77, 73, 84, 84, 69, 82, 95, 73, 68, 69, 78, 84, 96, 34, 10, 9,
  101, 99, 104, 111, 10, 9, 112, 114, 105, 110, 116, 102, 32, 39, 37, 115, 39, 32, 34, 36,
  99, 108, 101, 97, 110, 95, 109, 101, 115, 115, 97, 103, 101, 34, 10, 125, 10, 95, 103, 101,
  110, 95, 67, 104, 97, 110, 103, 101, 73, 100, 40, 41, 32, 123, 10, 9, 95, 103, 101, 110,
  95, 67, 104, 97, 110, 103, 101, 73, 100, 73, 110, 112, 117, 116, 32, 124, 10, 9, 103, 105,
  116, 32, 104, 97, 115, 104, 45, 111, 98, 106, 101, 99, 116, 32, 45, 116, 32, 99, 111, 109,
  109, 105, 116, 32, 45, 45, 115, 116, 100, 105, 110, 10, 125, 10, 10, 10, 97, 100, 100, 95,
  67, 104, 97, 110, 103, 101, 73, 100, 10]


/-- A file on disk: its content bytes and its permission bits. -/
structure File where
  content : List Nat
  perm : Nat
deriving DecidableEq

/-- External conditions consulted by `installHook`: the process-wide
`*verbose` level, whether `os.Remove` fails (and the error value it would
return — the Go code discards that value), and whether
`ioutil.WriteFile` fails. -/
structure Env where
  verbose : Nat
  removeFails : Bool
  removeErrMsg : String
  writeFails : Bool

/-- The state `installHook` acts on: the files under the hook directory
(keyed by their path relative to the repository root, which is constant
within a run), the diagnostics emitted so far, the log of completed
`WriteFile` calls, and whether `dief` was reached. -/
structure St where
  fs : String → Option File
  diags : List String
  writes : List (String × List Nat)
  fatal : Option String

/-- Modelled from the spec: `verbosef` (defined outside this file's source)
emits its diagnostic only when a verbosity/diagnostic mode is enabled
("Diagnostic-only conditions … are reported only when a verbosity/diagnostic
mode is enabled"). -/
def verbosef (env : Env) (msg : String) (st : St) : St :=
  if 0 < env.verbose then { st with diags := st.diags ++ [msg] } else st

def hookPath : String := ".git/hooks/"

def hookFiles : List String := ["commit-msg"]

/-- Go's `fmt.Sprintf(hookScript, hookFile)`: the two-line dispatcher
script rendered for one hook name. -/
def hookScriptFor (name : String) : List Nat :=
  strBytes ("#!/bin/sh\nexec git-review hook-invoke " ++ name ++ " \"$@\"\n")

/-- The legacy-migration block at the top of `installHook`'s loop body:
for the hook named `commit-msg` only, read the file (a failed read skips
the block), compare byte-for-byte with `oldCommitMsgHook`, announce and
attempt `os.Remove` on a match.  `os.Remove`'s error value is discarded by
the code: on failure the file simply stays and nothing further happens. -/
def legacyMigrate (env : Env) (name fname : String) (st : St) : St :=
  if name == "commit-msg" then
    match st.fs fname with
    | some f =>
      if f.content == oldCommitMsgHook then
        if env.removeFails then
          verbosef env "removing old commit-msg hook" st
        else
          { verbosef env "removing old commit-msg hook" st with
            fs := fun p => if p == fname then none else st.fs p }
      else st
    | none => st
  else st

/-- The remainder of `installHook`'s loop body: if a file exists at the
target path, leave it alone (in verbose mode re-read it and note a content
mismatch against the rendered script); otherwise write the rendered script
with permission `0700` (= 448), `dief`-ing if the write fails.  Reads of an
existing file are modelled as succeeding. -/
def installCheck (env : Env) (name fname : String) (st : St) : St :=
  match st.fs fname with
  | some f =>
    if 0 < env.verbose then
      if f.content == hookScriptFor name then st
      else verbosef env ("unexpected hook content in " ++ fname) st
    else st
  | none =>
    if env.writeFails then
      { verbosef env ("installing " ++ name ++ " hook") st with
        fatal := some "writing hook" }
    else
      { verbosef env ("installing " ++ name ++ " hook") st with
        fs := fun p => if p == fname then some ⟨hookScriptFor name, 448⟩ else st.fs p,
        writes := st.writes ++ [(fname, hookScriptFor name)] }

/-- One iteration of `installHook`'s loop for hook `name`; nothing runs once
`dief` has been reached (the process has exited). -/
def installHookFile (env : Env) (name : String) (st : St) : St :=
  if st.fatal.isSome then st
  else installCheck env name (hookPath ++ name) (legacyMigrate env name (hookPath ++ name) st)

/-- `installHook`: the loop over the fixed `hookFiles` registry. -/
def installHook (env : Env) (st : St) : St :=
  hookFiles.foldl (fun s n => installHookFile env n s) st

theorem verbosef_fs (env : Env) (m : String) (st : St) : (verbosef env m st).fs = st.fs := by
  unfold verbosef; split <;> rfl

theorem verbosef_writes (env : Env) (m : String) (st : St) :
    (verbosef env m st).writes = st.writes := by
  unfold verbosef; split <;> rfl

theorem verbosef_fatal (env : Env) (m : String) (st : St) :
    (verbosef env m st).fatal = st.fatal := by
  unfold verbosef; split <;> rfl

theorem hookScript_ne_legacy : (hookScriptFor "commit-msg" == oldCommitMsgHook) = false := by
  decide

theorem installHook_eq (env : Env) (st : St) :
    installHook env st = installHookFile env "commit-msg" st := rfl

theorem legacyMigrate_skip (env : Env) (name fname : String) (st : St)
    (h : ∀ f, st.fs fname = some f → (f.content == oldCommitMsgHook) = false) :
    legacyMigrate env name fname st = st := by
  unfold legacyMigrate
  by_cases hn : (name == "commit-msg") = true
  · rw [if_pos hn]
    cases hfs : st.fs fname with
    | none => rfl
    | some f => simp [h f hfs]
  · rw [if_neg hn]

theorem legacyMigrate_removeFails (env : Env) (name fname : String) (st : St)
    (hrm : env.removeFails = true) :
    (legacyMigrate env name fname st).fs = st.fs
    ∧ (legacyMigrate env name fname st).writes = st.writes
    ∧ (legacyMigrate env name fname st).fatal = st.fatal := by
  by_cases hn : (name == "commit-msg") = true
  · cases hfs : st.fs fname with
    | none => simp [legacyMigrate, hn, hfs]
    | some f =>
      by_cases hc : (f.content == oldCommitMsgHook) = true
      · simp [legacyMigrate, hn, hfs, hc, hrm, verbosef_fs, verbosef_writes, verbosef_fatal]
      · simp [legacyMigrate, hn, hfs, hc]
  · simp [legacyMigrate, hn]

theorem legacyMigrate_delete (env : Env) (fname : String) (st : St) (f : File)
    (hrm : env.removeFails = false) (hfs : st.fs fname = some f)
    (hc : f.content = oldCommitMsgHook) :
    (legacyMigrate env "commit-msg" fname st).fs fname = none
    ∧ (∀ p, p ≠ fname → (legacyMigrate env "commit-msg" fname st).fs p = st.fs p)
    ∧ (legacyMigrate env "commit-msg" fname st).writes = st.writes
    ∧ (legacyMigrate env "commit-msg" fname st).fatal = st.fatal := by
  unfold legacyMigrate
  simp only [hfs, hc, beq_self_eq_true, if_true, hrm, Bool.false_eq_true, if_false]
  refine ⟨by simp, fun p hp => by simp [hp], verbosef_writes _ _ _, verbosef_fatal _ _ _⟩

theorem installCheck_exists (env : Env) (name fname : String) (st : St) (f : File)
    (hfs : st.fs fname = some f) :
    (installCheck env name fname st).fs = st.fs
    ∧ (installCheck env name fname st).writes = st.writes
    ∧ (installCheck env name fname st).fatal = st.fatal := by
  simp only [installCheck, hfs]
  by_cases hv : 0 < env.verbose
  · rw [if_pos hv]
    by_cases hc : (f.content == hookScriptFor name) = true
    · rw [if_pos hc]
      exact ⟨rfl, rfl, rfl⟩
    · rw [if_neg hc]
      exact ⟨verbosef_fs _ _ _, verbosef_writes _ _ _, verbosef_fatal _ _ _⟩
  · rw [if_neg hv]
    exact ⟨rfl, rfl, rfl⟩

theorem installCheck_write (env : Env) (name fname : String) (st : St)
    (hfs : st.fs fname = none) (hw : env.writeFails = false) :
    (installCheck env name fname st).fs fname = some ⟨hookScriptFor name, 448⟩
    ∧ (∀ p, p ≠ fname → (installCheck env name fname st).fs p = st.fs p)
    ∧ (installCheck env name fname st).writes = st.writes ++ [(fname, hookScriptFor name)]
    ∧ (installCheck env name fname st).fatal = st.fatal := by
  have hit : installCheck env name fname st
      = { verbosef env ("installing " ++ name ++ " hook") st with
          fs := fun p => if p == fname then some ⟨hookScriptFor name, 448⟩ else st.fs p,
          writes := st.writes ++ [(fname, hookScriptFor name)] } := by
    simp only [installCheck, hfs]
    rw [if_neg (by rw [hw]; simp)]
  rw [hit]
  refine ⟨by simp, fun p hp => by simp [hp], rfl, verbosef_fatal _ _ _⟩

/-- After a successful `installHook` run, the commit-msg hook path holds a
file, no fatal error occurred, and that file is never the legacy script
(a surviving legacy file implies the removal was failing). -/
theorem install_first (env : Env) (st : St)
    (hw : env.writeFails = false) (hf : st.fatal = none) :
    (installHook env st).fatal = none
    ∧ ∃ f, (installHook env st).fs (hookPath ++ "commit-msg") = some f
        ∧ ((f.content == oldCommitMsgHook) = false ∨ env.removeFails = true) := by
  rw [installHook_eq]
  unfold installHookFile
  rw [if_neg (by rw [hf]; simp)]
  cases hfs : st.fs (hookPath ++ "commit-msg") with
  | none =>
    have hmig : legacyMigrate env "commit-msg" (hookPath ++ "commit-msg") st = st :=
      legacyMigrate_skip _ _ _ _ (fun f hff => by rw [hfs] at hff; cases hff)
    rw [hmig]
    obtain ⟨h1, _, _, h4⟩ := installCheck_write env "commit-msg" (hookPath ++ "commit-msg") st hfs hw
    exact ⟨by rw [h4, hf], ⟨_, h1, Or.inl hookScript_ne_legacy⟩⟩
  | some f =>
    by_cases hleg : (f.content == oldCommitMsgHook) = true
    · by_cases hrm : env.removeFails = true
      · obtain ⟨m1, m2, m3⟩ := legacyMigrate_removeFails env "commit-msg" (hookPath ++ "commit-msg") st hrm
        obtain ⟨c1, c2, c3⟩ := installCheck_exists env "commit-msg" (hookPath ++ "commit-msg")
          (legacyMigrate env "commit-msg" (hookPath ++ "commit-msg") st) f (by rw [m1, hfs])
        refine ⟨by rw [c3, m3, hf], ⟨f, ?_, Or.inr hrm⟩⟩
        rw [c1, m1, hfs]
      · have hrm' : env.removeFails = false := by
          cases h : env.removeFails
          · rfl
          · exact absurd h hrm
        obtain ⟨d1, d2, d3, d4⟩ := legacyMigrate_delete env (hookPath ++ "commit-msg") st f
          hrm' hfs (by simpa using hleg)
        obtain ⟨w1, w2, w3, w4⟩ := installCheck_write env "commit-msg" (hookPath ++ "commit-msg")
          (legacyMigrate env "commit-msg" (hookPath ++ "commit-msg") st) d1 hw
        exact ⟨by rw [w4, d4, hf], ⟨_, w1, Or.inl hookScript_ne_legacy⟩⟩
    · have hmig : legacyMigrate env "commit-msg" (hookPath ++ "commit-msg") st = st :=
        legacyMigrate_skip _ _ _ _
          (fun g hg => by rw [hfs] at hg; cases hg; simpa using hleg)
      rw [hmig]
      obtain ⟨c1, c2, c3⟩ := installCheck_exists env "commit-msg" (hookPath ++ "commit-msg") st f hfs
      refine ⟨by rw [c3, hf], ⟨f, ?_, Or.inl (by simpa using hleg)⟩⟩
      rw [c1, hfs]

/-- A run of `installHook` on a state whose commit-msg hook path already
holds a file that the migration will not delete changes neither the
filesystem nor the write log and stays non-fatal. -/
theorem install_noop (env : Env) (st : St) (f : File) (hf : st.fatal = none)
    (hfs : st.fs (hookPath ++ "commit-msg") = some f)
    (hinv : (f.content == oldCommitMsgHook) = false ∨ env.removeFails = true) :
    (installHook env st).fs = st.fs
    ∧ (installHook env st).writes = st.writes
    ∧ (installHook env st).fatal = none := by
  rw [installHook_eq]
  unfold installHookFile
  rw [if_neg (by rw [hf]; simp)]
  rcases hinv with hne | hrm
  · have hmig : legacyMigrate env "commit-msg" (hookPath ++ "commit-msg") st = st :=
      legacyMigrate_skip _ _ _ _ (fun g hg => by rw [hfs] at hg; cases hg; exact hne)
    rw [hmig]
    obtain ⟨c1, c2, c3⟩ := installCheck_exists env "commit-msg" (hookPath ++ "commit-msg") st f hfs
    exact ⟨c1, c2, by rw [c3, hf]⟩
  · obtain ⟨m1, m2, m3⟩ := legacyMigrate_removeFails env "commit-msg" (hookPath ++ "commit-msg") st hrm
    obtain ⟨c1, c2, c3⟩ := installCheck_exists env "commit-msg" (hookPath ++ "commit-msg")
      (legacyMigrate env "commit-msg" (hookPath ++ "commit-msg") st) f (by rw [m1, hfs])
    exact ⟨by rw [c1, m1], by rw [c2, m2], by rw [c3, m3, hf]⟩

/-- C3: calling `installHook` twice with no external interference leaves the
filesystem in the same final state as calling it once, does not error on the
second call, and the second call performs no writes: after the first call a
file exists at the hook path, so the second call's install step skips. -/
theorem c3_install_idempotent (env : Env) (st : St)
    (hw : env.writeFails = false) (hf : st.fatal = none) :
    (∃ f, (installHook env st).fs (hookPath ++ "commit-msg") = some f)
    ∧ (installHook env (installHook env st)).fs = (installHook env st).fs
    ∧ (installHook env (installHook env st)).writes = (installHook env st).writes
    ∧ (installHook env (installHook env st)).fatal = none := by
  obtain ⟨h1, f1, hfs1, hinv1⟩ := install_first env st hw hf
  obtain ⟨n1, n2, n3⟩ := install_noop env (installHook env st) f1 h1 hfs1 hinv1
  exact ⟨⟨f1, hfs1⟩, n1, n2, n3⟩

theorem c3_install_idempotent_witness :
    (∃ f, (installHook ⟨0, false, "", false⟩
        { fs := fun _ => none, diags := [], writes := [], fatal := none }).fs
        (hookPath ++ "commit-msg") = some f)
    ∧ (installHook ⟨0, false, "", false⟩ (installHook ⟨0, false, "", false⟩
          { fs := fun _ => none, diags := [], writes := [], fatal := none })).fs
        = (installHook ⟨0, false, "", false⟩
          { fs := fun _ => none, diags := [], writes := [], fatal := none }).fs
    ∧ (installHook ⟨0, false, "", false⟩ (installHook ⟨0, false, "", false⟩
          { fs := fun _ => none, diags := [], writes := [], fatal := none })).writes
        = (installHook ⟨0, false, "", false⟩
          { fs := fun _ => none, diags := [], writes := [], fatal := none }).writes
    ∧ (installHook ⟨0, false, "", false⟩ (installHook ⟨0, false, "", false⟩
          { fs := fun _ => none, diags := [], writes := [], fatal := none })).fatal = none :=
  c3_install_idempotent ⟨0, false, "", false⟩
    { fs := fun _ => none, diags := [], writes := [], fatal := none } rfl rfl

/-- C4: the legacy migration deletes the file at the hook path iff the file
exists with content byte-for-byte identical to the historical script; a file
differing by even one byte is never deleted (the whole state is untouched);
migration applies only to the hook named `commit-msg`. -/
theorem c4_legacy_migration_exact (env : Env) (name fname : String) (st : St) :
    (name ≠ "commit-msg" → legacyMigrate env name fname st = st)
    ∧ (∀ f, st.fs fname = some f → f.content ≠ oldCommitMsgHook →
        legacyMigrate env name fname st = st)
    ∧ (st.fs fname = none → legacyMigrate env name fname st = st)
    ∧ (env.removeFails = false →
        ((legacyMigrate env name fname st).fs fname = none ∧ st.fs fname ≠ none
          ↔ name = "commit-msg" ∧ ∃ f, st.fs fname = some f ∧ f.content = oldCommitMsgHook)) := by
  have hother : name ≠ "commit-msg" → legacyMigrate env name fname st = st := by
    intro h
    have hn : (name == "commit-msg") = false := by simpa using h
    simp [legacyMigrate, hn]
  have hskip : ∀ f, st.fs fname = some f → f.content ≠ oldCommitMsgHook →
      legacyMigrate env name fname st = st := by
    intro f hfs hne
    refine legacyMigrate_skip env name fname st ?_
    intro g hg
    rw [hfs] at hg
    cases hg
    simpa using hne
  have hnil : st.fs fname = none → legacyMigrate env name fname st = st := by
    intro h
    refine legacyMigrate_skip env name fname st ?_
    intro g hg
    rw [h] at hg
    cases hg
  refine ⟨hother, hskip, hnil, ?_⟩
  intro hrm
  constructor
  · rintro ⟨hafter, hbefore⟩
    by_cases hn : name = "commit-msg"
    · subst hn
      cases hfs : st.fs fname with
      | none => exact absurd hfs hbefore
      | some f =>
        by_cases hc : f.content = oldCommitMsgHook
        · exact ⟨rfl, f, rfl, hc⟩
        · rw [hskip f hfs hc, hfs] at hafter
          cases hafter
    · rw [hother hn] at hafter
      exact absurd hafter hbefore
  · rintro ⟨rfl, f, hfs, hc⟩
    refine ⟨(legacyMigrate_delete env fname st f hrm hfs hc).1, ?_⟩
    rw [hfs]
    simp

def envQuiet : Env := ⟨0, false, "", false⟩

/-- A state whose hook file differs from the legacy script by one trailing
byte. -/
def stNearLegacy : St :=
  { fs := fun p => if p == "h" then some ⟨oldCommitMsgHook ++ [10], 493⟩ else none,
    diags := [], writes := [], fatal := none }

/-- A state whose hook file is byte-identical to the legacy script. -/
def stExactLegacy : St :=
  { fs := fun p => if p == "h" then some ⟨oldCommitMsgHook, 493⟩ else none,
    diags := [], writes := [], fatal := none }

theorem c4_legacy_migration_exact_witness :
    legacyMigrate envQuiet "commit-msg" "h" stNearLegacy = stNearLegacy
    ∧ ((legacyMigrate envQuiet "commit-msg" "h" stExactLegacy).fs "h" = none
        ∧ stExactLegacy.fs "h" ≠ none) :=
  ⟨(c4_legacy_migration_exact envQuiet "commit-msg" "h" stNearLegacy).2.1
      ⟨oldCommitMsgHook ++ [10], 493⟩ rfl
      (by intro h; have := congrArg List.length h; simp at this),
    ((c4_legacy_migration_exact envQuiet "commit-msg" "h" stExactLegacy).2.2.2 rfl).mpr
      ⟨rfl, ⟨oldCommitMsgHook, 493⟩, rfl, rfl⟩⟩

/-- C5: a pre-existing hook file whose content is not byte-identical to the
legacy script is never modified or deleted by `installHook`: the whole
filesystem (content and permissions) is unchanged, nothing is written, and
no fatal error occurs — a content mismatch is at most a diagnostic. -/
theorem c5_existing_hook_preserved (env : Env) (st : St) (f : File)
    (hfs : st.fs (hookPath ++ "commit-msg") = some f)
    (hne : f.content ≠ oldCommitMsgHook) (hf : st.fatal = none) :
    (installHook env st).fs = st.fs
    ∧ (installHook env st).fs (hookPath ++ "commit-msg") = some f
    ∧ (installHook env st).writes = st.writes
    ∧ (installHook env st).fatal = none := by
  obtain ⟨n1, n2, n3⟩ := install_noop env st f hf hfs (Or.inl (by simpa using hne))
  exact ⟨n1, by rw [n1, hfs], n2, n3⟩

/-- A state holding a user-customized hook script at the commit-msg path. -/
def stUserHook : St :=
  { fs := fun p =>
      if p == hookPath ++ "commit-msg" then some ⟨strBytes "#!/bin/sh\necho hi\n", 493⟩ else none,
    diags := [], writes := [], fatal := none }

theorem c5_existing_hook_preserved_witness :
    (installHook ⟨1, false, "", false⟩ stUserHook).fs = stUserHook.fs
    ∧ (installHook ⟨1, false, "", false⟩ stUserHook).fs (hookPath ++ "commit-msg")
        = some ⟨strBytes "#!/bin/sh\necho hi\n", 493⟩
    ∧ (installHook ⟨1, false, "", false⟩ stUserHook).writes = stUserHook.writes
    ∧ (installHook ⟨1, false, "", false⟩ stUserHook).fatal = none :=
  c5_existing_hook_preserved ⟨1, false, "", false⟩ stUserHook
    ⟨strBytes "#!/bin/sh\necho hi\n", 493⟩ rfl (by decide) rfl

/-- The installer's result never depends on the error value that a failing
`os.Remove` would report: the code discards it. -/
theorem installHook_errmsg_irrelevant (v : Nat) (r : Bool) (m1 m2 : String) (w : Bool)
    (st : St) : installHook ⟨v, r, m1, w⟩ st = installHook ⟨v, r, m2, w⟩ st := rfl

/-- A state whose commit-msg hook file is exactly the legacy script, at the
real hook path. -/
def stLegacyAtHookPath : St :=
  { fs := fun p => if p == ".git/hooks/commit-msg" then some ⟨oldCommitMsgHook, 493⟩ else none,
    diags := [], writes := [], fatal := none }

set_option maxRecDepth 40000 in
/-- C9 counterexample: with verbose mode on and a failing `os.Remove`, the
diagnostics of the whole install run are exactly the pre-removal notice and
the generic content-mismatch note — and they are identical whatever error the
failed removal reported, so the deletion failure itself is never surfaced as
a diagnostic. -/
theorem c9_delete_failure_not_surfaced :
    (installHook ⟨1, true, "permission denied", false⟩ stLegacyAtHookPath).diags
      = ["removing old commit-msg hook", "unexpected hook content in .git/hooks/commit-msg"]
    ∧ (installHook ⟨1, true, "disk error", false⟩ stLegacyAtHookPath).diags
      = ["removing old commit-msg hook", "unexpected hook content in .git/hooks/commit-msg"] := by
  constructor
  · rfl
  · rfl

/-- C9 (amended): when the deletion of a byte-identical legacy hook fails,
the failure is silently ignored — the removal's error value is discarded and
no diagnostic about the failure is emitted (the run's outcome is independent
of the error message) — and the failure does not block or abort the
subsequent install steps: no fatal error, the installer proceeds and leaves
the filesystem and write log unchanged. -/
theorem c9_delete_failure_silent (v : Nat) (m1 m2 : String) (w : Bool) (st : St) (f : File)
    (hfs : st.fs (hookPath ++ "commit-msg") = some f)
    (_hc : f.content = oldCommitMsgHook) (hf : st.fatal = none) :
    (installHook ⟨v, true, m1, w⟩ st).fatal = none
    ∧ (installHook ⟨v, true, m1, w⟩ st).fs = st.fs
    ∧ (installHook ⟨v, true, m1, w⟩ st).writes = st.writes
    ∧ installHook ⟨v, true, m1, w⟩ st = installHook ⟨v, true, m2, w⟩ st := by
  obtain ⟨n1, n2, n3⟩ := install_noop ⟨v, true, m1, w⟩ st f hf hfs (Or.inr rfl)
  exact ⟨n3, n1, n2, installHook_errmsg_irrelevant v true m1 m2 w st⟩

theorem c9_delete_failure_silent_witness :
    (installHook ⟨1, true, "permission denied", false⟩ stLegacyAtHookPath).fatal = none
    ∧ (installHook ⟨1, true, "permission denied", false⟩ stLegacyAtHookPath).fs
        = stLegacyAtHookPath.fs
    ∧ (installHook ⟨1, true, "permission denied", false⟩ stLegacyAtHookPath).writes
        = stLegacyAtHookPath.writes
    ∧ installHook ⟨1, true, "permission denied", false⟩ stLegacyAtHookPath
        = installHook ⟨1, true, "disk error", false⟩ stLegacyAtHookPath :=
  c9_delete_failure_silent 1 "permission denied" "disk error" false stLegacyAtHookPath
    ⟨oldCommitMsgHook, 493⟩ rfl rfl rfl

/-- `repoRoot`, on a directory given as its list of path components below
the filesystem root (`[]` is the root itself, `"/"`, or the Windows volume
root — the `rootlen` computation in the source makes both the stopping
point of the walk).  `hasGit dir` models `os.Stat(filepath.Join(dir,
".git"))` succeeding.  Each step checks the current directory, then either
stops fatally at the root (`none`, for `dief`) or moves to the parent
(`filepath.Dir` drops the last component). -/
def repoRoot (hasGit : List String → Bool) : List String → Option (List String)
  | [] => if hasGit [] then some [] else none
  | d :: ds =>
    if hasGit (d :: ds) then some (d :: ds)
    else repoRoot hasGit (d :: ds).dropLast
termination_by dir => dir.length
decreasing_by
  simp [List.length_dropLast]

theorem repoRoot_none_aux (hasGit : List String → Bool) :
    ∀ n (dir : List String), dir.length ≤ n →
      (∀ k, k ≤ dir.length → hasGit (dir.take k) = false) →
      repoRoot hasGit dir = none := by
  intro n
  induction n with
  | zero =>
    intro dir hlen h
    have hdir : dir = [] := List.length_eq_zero.mp (Nat.le_zero.mp hlen)
    subst hdir
    have h0 : hasGit [] = false := h 0 (by simp)
    simp [repoRoot, h0]
  | succ n ih =>
    intro dir hlen h
    cases dir with
    | nil =>
      have h0 : hasGit [] = false := h 0 (by simp)
      simp [repoRoot, h0]
    | cons d ds =>
      have htop : hasGit (d :: ds) = false := by
        have := h (d :: ds).length (le_refl _)
        rwa [List.take_length] at this
      rw [repoRoot, if_neg (by rw [htop]; simp)]
      refine ih (d :: ds).dropLast ?_ ?_
      · rw [List.length_dropLast]
        simpa using Nat.le_of_succ_le_succ hlen
      · intro k hk
        rw [List.length_dropLast] at hk
        rw [List.dropLast_eq_take, List.take_take, min_eq_left hk]
        exact h k (le_trans hk (by simp))

theorem repoRoot_found_aux (hasGit : List String → Bool) :
    ∀ n (dir : List String) (k : Nat), dir.length ≤ n → k ≤ dir.length →
      hasGit (dir.take k) = true →
      (∀ j, k < j → j ≤ dir.length → hasGit (dir.take j) = false) →
      repoRoot hasGit dir = some (dir.take k) := by
  intro n
  induction n with
  | zero =>
    intro dir k hlen hk hgit _
    have hdir : dir = [] := List.length_eq_zero.mp (Nat.le_zero.mp hlen)
    subst hdir
    have hk0 : k = 0 := Nat.le_zero.mp hk
    subst hk0
    simp only [List.take_nil] at hgit ⊢
    simp [repoRoot, hgit]
  | succ n ih =>
    intro dir k hlen hk hgit habove
    cases dir with
    | nil =>
      have hk0 : k = 0 := Nat.le_zero.mp hk
      subst hk0
      simp only [List.take_nil] at hgit ⊢
      simp [repoRoot, hgit]
    | cons d ds =>
      by_cases hke : k = (d :: ds).length
      · subst hke
        rw [List.take_length] at hgit ⊢
        rw [repoRoot, if_pos (by rw [hgit])]
      · have hklt : k < (d :: ds).length := lt_of_le_of_ne hk hke
        have htop : hasGit (d :: ds) = false := by
          have := habove (d :: ds).length hklt (le_refl _)
          rwa [List.take_length] at this
        rw [repoRoot, if_neg (by rw [htop]; simp)]
        have hdk : (d :: ds).dropLast.take k = (d :: ds).take k := by
          rw [List.dropLast_eq_take, List.take_take,
            min_eq_left (Nat.le_sub_one_of_lt hklt)]
        rw [← hdk]
        refine ih (d :: ds).dropLast k ?_ ?_ ?_ ?_
        · rw [List.length_dropLast]
          simpa using Nat.le_of_succ_le_succ hlen
        · rw [List.length_dropLast]
          exact Nat.le_sub_one_of_lt hklt
        · rw [hdk]; exact hgit
        · intro j hj hjle
          rw [List.length_dropLast] at hjle
          rw [List.dropLast_eq_take, List.take_take, min_eq_left hjle]
          exact habove j hj (le_trans hjle (by simp))

/-- C6: starting from a directory nested arbitrarily deep below the only
directory that contains a `.git` entry, `repoRoot` walks upward one
component at a time and returns exactly that top-level directory; and when
no directory on the walk up to and including the filesystem root contains
`.git`, it fails fatally (`dief`, modelled as `none`) instead of looping or
returning a directory. -/
theorem c6_repo_root_walk (hasGit : List String → Bool) (top rest : List String)
    (htop : hasGit top = true)
    (habove : ∀ j, top.length < j → j ≤ (top ++ rest).length →
        hasGit ((top ++ rest).take j) = false) :
    repoRoot hasGit (top ++ rest) = some top
    ∧ ∀ dir2 : List String,
        (∀ k, k ≤ dir2.length → hasGit (dir2.take k) = false) →
        repoRoot hasGit dir2 = none := by
  constructor
  · have h1 : (top ++ rest).take top.length = top := List.take_left top rest
    have h2 : top.length ≤ (top ++ rest).length := by
      rw [List.length_append]; omega
    have := repoRoot_found_aux hasGit (top ++ rest).length (top ++ rest) top.length
      (le_refl _) h2 (by rw [h1]; exact htop) habove
    rwa [h1] at this
  · intro dir2 h
    exact repoRoot_none_aux hasGit dir2.length dir2 (le_refl _) h

theorem c6_repo_root_walk_witness :
    repoRoot (fun l => l == ["home", "user", "proj"]) ["home", "user", "proj", "a", "b"]
        = some ["home", "user", "proj"]
    ∧ repoRoot (fun l => l == ["home", "user", "proj"]) ["tmp"] = none := by
  have h := c6_repo_root_walk (fun l => l == ["home", "user", "proj"])
    ["home", "user", "proj"] ["a", "b"] (by decide)
    (by
      intro j h1 h2
      have h1' : 3 < j := by simpa using h1
      have h2' : j ≤ 5 := by simpa using h2
      interval_cases j <;> decide)
  refine ⟨h.1, h.2 ["tmp"] ?_⟩
  intro k hk
  have hk' : k ≤ 1 := by simpa using hk
  interval_cases k <;> decide

/-- The state a hook invocation acts on: the commit-message files on disk
and whether `dief` was reached. -/
structure MsgSt where
  fs : String → Option (List Nat)
  fatal : Option String

/-- The effectful `hookCommitMsg`: exactly one argument (the message file
path) or `dief` with a usage string; an unreadable file is fatal; then the
data-level transformation `hookCommitMsgData` decides whether the file is
rewritten.  `id` is the 20-byte draw from `crypto/rand` (assumed to
succeed, as is the write-back). -/
def hookCommitMsgRun (id : List Nat) (args : List String) (st : MsgSt) : MsgSt :=
  match args with
  | [file] =>
    match st.fs file with
    | none => { st with fatal := some "read error" }
    | some data =>
      match hookCommitMsgData data id with
      | none => st
      | some newData => { st with fs := fun p => if p == file then some newData else st.fs p }
  | _ => { st with fatal := some "usage: git-review hook-invoke commit-msg message.txt" }

/-- `hookInvoke`: `dief` with a usage message on empty `args`; dispatch
`args[0]` against the known hook names (the `switch` has one case,
`commit-msg`); any other name falls through and returns normally. -/
def hookInvoke (id : List Nat) (args : List String) (st : MsgSt) : MsgSt :=
  match args with
  | [] => { st with fatal := some "usage: git-review hook-invoke <hook-name> [args...]" }
  | name :: rest =>
    if name == "commit-msg" then hookCommitMsgRun id rest st else st

/-- C7: `hookInvoke` fails fatally with a usage message on empty argument
lists (touching no file), hands `args[1:]` to the commit-msg handler when
`args[0] = "commit-msg"`, and returns the state completely unchanged — no
side effects, no error — for any other hook name. -/
theorem c7_dispatch (id : List Nat) (st : MsgSt) (name : String) (rest : List String) :
    (hookInvoke id [] st).fatal = some "usage: git-review hook-invoke <hook-name> [args...]"
    ∧ (hookInvoke id [] st).fs = st.fs
    ∧ hookInvoke id ("commit-msg" :: rest) st = hookCommitMsgRun id rest st
    ∧ (name ≠ "commit-msg" → hookInvoke id (name :: rest) st = st) := by
  refine ⟨rfl, rfl, ?_, ?_⟩
  · simp [hookInvoke]
  · intro h
    have hn : (name == "commit-msg") = false := by simpa using h
    simp [hookInvoke, hn]

def emptyMsgSt : MsgSt := { fs := fun _ => none, fatal := none }

theorem c7_dispatch_witness :
    (hookInvoke [] [] emptyMsgSt).fatal
        = some "usage: git-review hook-invoke <hook-name> [args...]"
    ∧ (hookInvoke [] [] emptyMsgSt).fs = emptyMsgSt.fs
    ∧ hookInvoke [] ["commit-msg", "msg.txt"] emptyMsgSt
        = hookCommitMsgRun [] ["msg.txt"] emptyMsgSt
    ∧ hookInvoke [] ["pre-commit", "msg.txt"] emptyMsgSt = emptyMsgSt :=
  ⟨(c7_dispatch [] emptyMsgSt "pre-commit" ["msg.txt"]).1,
    (c7_dispatch [] emptyMsgSt "pre-commit" ["msg.txt"]).2.1,
    (c7_dispatch [] emptyMsgSt "pre-commit" ["msg.txt"]).2.2.1,
    (c7_dispatch [] emptyMsgSt "pre-commit" ["msg.txt"]).2.2.2 (by decide)⟩

end GoReview
